import Mathlib

/-!
Verification of the life-cockpit messaging core: a shallow embedding of the
scheduled-message processor, the messaging provider layer and factory, the
mock Dataverse sandbox, the retry and circuit-breaker resilience layer of the
Dataverse client, and the guardrail wrapper, together with proofs settling
the specification claims about them.

Python dictionaries are modelled as association lists with string keys and
`PyVal` values (a string or the Python value None); Python truthiness on
those values, dict.get with and without default, and dict.update are
modelled explicitly.  Fallible Python code (code that can raise) is modelled
with Except; code that catches and swallows exceptions is total.
-/

/-- A Python value as it occurs in the message dictionaries of the source:
either a string or None. -/
inductive PyVal where
  | str (s : String)
  | noneVal
deriving DecidableEq

/-- A Python dict with string keys, as used for messages, records and result
entries throughout the source. -/
def Record : Type := List (String × PyVal)

instance : DecidableEq Record := by
  unfold Record
  infer_instance

/-- First-match association-list lookup: Python dict access semantics
(dict keys are unique, so first match is the only match). -/
def lookupField : List (String × β) → String → Option β
  | [], _ => none
  | (k, v) :: rest, key => if k = key then some v else lookupField rest key

/-- Python dict.get(key, default). -/
def pyGetD (r : Record) (key : String) (dflt : PyVal) : PyVal :=
  match lookupField r key with
  | some v => v
  | none => dflt

/-- Python dict.get(key): returns None when the key is absent. -/
def pyGet (r : Record) (key : String) : PyVal :=
  pyGetD r key .noneVal

/-- Python truthiness of a value: None and the empty string are falsy. -/
def truthy : PyVal → Bool
  | .str s => s ≠ ""
  | .noneVal => false

/-- Python str()/f-string rendering of a value: None prints as "None". -/
def pyStr : PyVal → String
  | .str s => s
  | .noneVal => "None"

/-- Lift an optional string (for example a MessageResult field) into a Python
value: Some s is the string, none is None. -/
def optToPy : Option String → PyVal
  | some s => .str s
  | none => .noneVal

/-- Python dict assignment d[k] = v on an association list: replace the value
in place if the key exists, else append the new key at the end (CPython dict
key-order semantics). -/
def setAssoc : List (String × β) → String → β → List (String × β)
  | [], k, v => [(k, v)]
  | (k', v') :: rest, k, v =>
    if k' = k then (k, v) :: rest else (k', v') :: setAssoc rest k v

/-- Python dict.update(data): values of existing keys are replaced in place,
new keys are appended in order. -/
def dictUpdate (r data : Record) : Record :=
  data.foldl (fun acc kv => setAssoc acc kv.1 kv.2) r

/-! ## Messaging provider layer (src/azure/messaging) -/

/-- The MessageResult dataclass of src/azure/messaging/base.py.  The sent_at
timestamp is carried as its iso string; metadata is the optional free-form
dict. -/
structure MessageResult where
  success : Bool
  externalId : Option String := none
  provider : Option String := none
  sentAt : Option String := none
  errorMessage : Option String := none
  metadata : Option Record := none
deriving DecidableEq

/-- The type_specific_fields table of MessagingProvider.get_required_fields.
The key is the raw message_type value (Python dict .get on a non-string key
such as None falls back to the empty default). -/
def typeSpecificFields : PyVal → List String
  | .str "email" => ["recipient", "subject"]
  | .str "sms" => ["recipient"]
  | .str "teams" => ["channel_id"]
  | .str "telegram" => ["chat_id"]
  | .str "whatsapp" => ["recipient"]
  | _ => []

/-- MessagingProvider.get_required_fields: base fields plus the type-specific
fields. -/
def getRequiredFields (messageType : PyVal) : List String :=
  ["message_type", "body"] ++ typeSpecificFields messageType

/-- MessagingProvider.validate_message: every required field for the message
type (defaulting to "unknown" when absent) must be present and truthy. -/
def validateMessage (message : Record) : Bool :=
  (getRequiredFields (pyGetD message "message_type" (.str "unknown"))).all
    fun f => truthy (pyGet message f)

/-- GraphMessagingProvider.supports_message_type. -/
def graphSupportsMessageType (messageType : PyVal) : Bool :=
  messageType = PyVal.str "email" || messageType = PyVal.str "teams"

/-- RespondMessagingProvider.supports_message_type. -/
def respondSupportsMessageType (messageType : PyVal) : Bool :=
  messageType = PyVal.str "telegram" || messageType = PyVal.str "sms"
    || messageType = PyVal.str "whatsapp"

/-- GraphMessagingProvider.send_message, parameterised by the two dispatch
methods it guards (_send_email and _send_teams_message); a dispatch that
raises is an error value carrying the exception text, and the except branch
of the source turns it into a failed MessageResult.  The second component
counts how many dispatch (network) calls were made. -/
def graphSendMessageWith (sendEmail sendTeams : Record → Except String MessageResult)
    (message : Record) : MessageResult × Nat :=
  let messageType := pyGet message "message_type"
  if !validateMessage message then
    ({ success := false, errorMessage := some "Message validation failed",
       provider := some "GraphMessagingProvider" }, 0)
  else if messageType = PyVal.str "email" then
    match sendEmail message with
    | .ok r => (r, 1)
    | .error e => ({ success := false, errorMessage := some e,
                     provider := some "GraphMessagingProvider" }, 1)
  else if messageType = PyVal.str "teams" then
    match sendTeams message with
    | .ok r => (r, 1)
    | .error e => ({ success := false, errorMessage := some e,
                     provider := some "GraphMessagingProvider" }, 1)
  else
    ({ success := false,
       errorMessage := some ("Unsupported message type: " ++ pyStr messageType),
       provider := some "GraphMessagingProvider" }, 0)

/-- GraphMessagingProvider._send_email (mock dispatch): always succeeds with a
synthetic external id suffixed by the current timestamp. -/
def sendEmailViaGraph (now : String) (message : Record) : MessageResult :=
  { success := true,
    externalId := some ("graph_email_" ++ now),
    provider := some "GraphMessagingProvider",
    sentAt := some now,
    metadata := some [("message_type", .str "email"),
                      ("recipient", pyGet message "recipient"),
                      ("subject", pyGet message "subject")] }

/-- GraphMessagingProvider._send_teams_message (mock dispatch). -/
def sendTeamsViaGraph (now : String) (message : Record) : MessageResult :=
  { success := true,
    externalId := some ("graph_teams_" ++ now),
    provider := some "GraphMessagingProvider",
    sentAt := some now,
    metadata := some [("message_type", .str "teams"),
                      ("channel_id", pyGet message "channel_id")] }

/-- GraphMessagingProvider.send_message with the dispatch methods of the
source (the in-repo mock dispatchers). -/
def graphSendMessage (now : String) (message : Record) : MessageResult × Nat :=
  graphSendMessageWith (fun m => .ok (sendEmailViaGraph now m))
    (fun m => .ok (sendTeamsViaGraph now m)) message

/-- RespondMessagingProvider.send_message, parameterised by its three dispatch
methods, mirroring the same validate-then-dispatch-with-catch shape. -/
def respondSendMessageWith
    (sendTelegram sendSms sendWhatsapp : Record → Except String MessageResult)
    (message : Record) : MessageResult × Nat :=
  let messageType := pyGet message "message_type"
  if !validateMessage message then
    ({ success := false, errorMessage := some "Message validation failed",
       provider := some "RespondMessagingProvider" }, 0)
  else if messageType = PyVal.str "telegram" then
    match sendTelegram message with
    | .ok r => (r, 1)
    | .error e => ({ success := false, errorMessage := some e,
                     provider := some "RespondMessagingProvider" }, 1)
  else if messageType = PyVal.str "sms" then
    match sendSms message with
    | .ok r => (r, 1)
    | .error e => ({ success := false, errorMessage := some e,
                     provider := some "RespondMessagingProvider" }, 1)
  else if messageType = PyVal.str "whatsapp" then
    match sendWhatsapp message with
    | .ok r => (r, 1)
    | .error e => ({ success := false, errorMessage := some e,
                     provider := some "RespondMessagingProvider" }, 1)
  else
    ({ success := false,
       errorMessage := some ("Unsupported message type: " ++ pyStr messageType),
       provider := some "RespondMessagingProvider" }, 0)

/-- RespondMessagingProvider._send_telegram_message (mock dispatch). -/
def sendTelegramViaRespond (now : String) (message : Record) : MessageResult :=
  { success := true,
    externalId := some ("respond_telegram_" ++ now),
    provider := some "RespondMessagingProvider",
    sentAt := some now,
    metadata := some [("message_type", .str "telegram"),
                      ("chat_id", pyGet message "chat_id"),
                      ("platform", .str "respond_io")] }

/-- RespondMessagingProvider._send_sms_message (mock dispatch). -/
def sendSmsViaRespond (now : String) (message : Record) : MessageResult :=
  { success := true,
    externalId := some ("respond_sms_" ++ now),
    provider := some "RespondMessagingProvider",
    sentAt := some now,
    metadata := some [("message_type", .str "sms"),
                      ("recipient", pyGet message "recipient"),
                      ("platform", .str "respond_io")] }

/-- RespondMessagingProvider._send_whatsapp_message (mock dispatch). -/
def sendWhatsappViaRespond (now : String) (message : Record) : MessageResult :=
  { success := true,
    externalId := some ("respond_whatsapp_" ++ now),
    provider := some "RespondMessagingProvider",
    sentAt := some now,
    metadata := some [("message_type", .str "whatsapp"),
                      ("recipient", pyGet message "recipient"),
                      ("platform", .str "respond_io")] }

/-- RespondMessagingProvider.send_message with the dispatch methods of the
source. -/
def respondSendMessage (now : String) (message : Record) : MessageResult × Nat :=
  respondSendMessageWith (fun m => .ok (sendTelegramViaRespond now m))
    (fun m => .ok (sendSmsViaRespond now m))
    (fun m => .ok (sendWhatsappViaRespond now m)) message

/-- A registered messaging provider as the factory sees it: its registry
name, its supports_message_type predicate, and its send_message operation
(result paired with the count of network dispatch calls). -/
structure Provider where
  name : String
  supports : PyVal → Bool
  send : Record → MessageResult × Nat

/-- MessagingFactory.get_provider_for_message_type: first-match scan over the
registry in registration order. -/
def getProviderForMessageType (providers : List Provider) (messageType : PyVal) :
    Option Provider :=
  providers.find? fun p => p.supports messageType

/-- MessagingFactory.send_message.  The second component counts provider
send_message invocations (0 when no provider is contacted). -/
def factorySendMessage (providers : List Provider) (message : Record) :
    MessageResult × Nat :=
  let messageType := pyGet message "message_type"
  if !truthy messageType then
    ({ success := false, errorMessage := some "Message type is required" }, 0)
  else
    match getProviderForMessageType providers messageType with
    | none =>
      ({ success := false,
         errorMessage := some ("No provider available for message type: "
           ++ pyStr messageType) }, 0)
    | some p => ((p.send message).1, 1)

/-- The provider registry built by MessagingFactory._initialize_providers for
the MessageProcessor configuration: graph first, then respond. -/
def defaultProviders (now : String) : List Provider :=
  [{ name := "graph", supports := graphSupportsMessageType,
     send := graphSendMessage now },
   { name := "respond", supports := respondSupportsMessageType,
     send := respondSendMessage now }]

/-! ## Mock Dataverse sandbox (src/utils/sandbox.py) -/

/-- The MockDataverse store: table name to list of records, in creation
order. -/
structure MockDataverse where
  tables : List (String × List Record)
deriving DecidableEq

/-- The table map seeded by MockDataverse.__init__. -/
def initialMockDataverse : MockDataverse :=
  { tables := [("accounts", []), ("contacts", []), ("opportunities", []),
               ("ai_conversations", []), ("ai_projects", []), ("ai_knowledge", [])] }

/-- self.data.get(table_name, []). -/
def tableRecords (dv : MockDataverse) (tableName : String) : List Record :=
  match lookupField dv.tables tableName with
  | some records => records
  | none => []

/-- self.data[table_name] = records. -/
def setTable (dv : MockDataverse) (tableName : String) (records : List Record) :
    MockDataverse :=
  { tables := setAssoc dv.tables tableName records }

/-- MockDataverse.create_record: the new id is the table name suffixed by the
new length; the record is the id, then the payload, then created_at (built
with dict-update semantics so a payload id or created_at key would override
in place). -/
def mockCreateRecord (dv : MockDataverse) (tableName : String) (data : Record)
    (now : String) : MockDataverse × Record :=
  let records := tableRecords dv tableName
  let recordId := tableName ++ "_" ++ toString (records.length + 1)
  let record := dictUpdate (dictUpdate [("id", .str recordId)] data)
    [("created_at", .str now)]
  (setTable dv tableName (records ++ [record]), record)

/-- MockDataverse.query_records: the mock only logs the filter and orderby
arguments and never applies them; only top is applied (and, being a Python
truthiness test, a top of 0 is ignored). -/
def mockQueryRecords (dv : MockDataverse) (tableName : String)
    (filter orderby : Option String) (top : Option Nat) : List Record :=
  let records := tableRecords dv tableName
  let _ := filter
  let _ := orderby
  match top with
  | some t => if t ≠ 0 then records.take t else records
  | none => records

/-- The record-list walk of MockDataverse.update_record: the first record
whose id equals record_id is updated in place (dict.update of the payload,
then updated_at is set); a record without an id key raises KeyError before
any later record is examined; no match at all reports not-found (as ok none,
turned into ValueError by the caller). -/
def updateRecordIn (records : List Record) (recordId : PyVal) (data : Record)
    (now : String) : Except String (Option (List Record)) :=
  match records with
  | [] => .ok none
  | r :: rest =>
    match lookupField r "id" with
    | none => .error "KeyError: \x27id\x27"
    | some rid =>
      if rid = recordId then
        .ok (some (dictUpdate (dictUpdate r data) [("updated_at", .str now)] :: rest))
      else
        match updateRecordIn rest recordId data now with
        | .error e => .error e
        | .ok none => .ok none
        | .ok (some rest') => .ok (some (r :: rest'))

/-- MockDataverse.update_record: updates the matching record or raises
ValueError when no record matches. -/
def mockUpdateRecord (dv : MockDataverse) (tableName : String) (recordId : PyVal)
    (data : Record) (now : String) : Except String MockDataverse :=
  match updateRecordIn (tableRecords dv tableName) recordId data now with
  | .error e => .error e
  | .ok none =>
    .error ("Record " ++ pyStr recordId ++ " not found in " ++ tableName)
  | .ok (some records') => .ok (setTable dv tableName records')

/-! ## Scheduled message processor (src/azure/message_processor.py) -/

/-- MessageProcessor._log_message_sent: creates a messages_log record; the
mock create cannot fail, and the source swallows any failure anyway. -/
def logMessageSent (dv : MockDataverse)
    (messageId messageType recipient subject body provider externalId : PyVal)
    (now : String) : MockDataverse :=
  let logEntry : Record :=
    [("message_id", messageId), ("message_type", messageType),
     ("recipient", recipient), ("subject", subject), ("body", body),
     ("status", .str "sent"), ("sent_at", .str now), ("provider", provider),
     ("message_id_external", externalId)]
  (mockCreateRecord dv "messages_log" logEntry now).1

/-- The json.dumps({"external_id": e}) string stored in the metadata field by
MessageProcessor._mark_message_sent. -/
def jsonExternalIdMeta (externalId : String) : String :=
  "\x7b\"external_id\": \"" ++ externalId ++ "\"\x7d"

/-- MessageProcessor._mark_message_sent: updates the scheduled_messages
record to status sent; a failure of the update propagates to the caller. -/
def markMessageSent (dv : MockDataverse) (messageId : PyVal)
    (externalId : Option String) (now : String) : Except String MockDataverse :=
  let updateData : Record :=
    [("status", .str "sent"), ("processed_time", .str now),
     ("updated_at", .str now)] ++
      (match externalId with
       | some e => if e ≠ "" then [("metadata", .str (jsonExternalIdMeta e))] else []
       | none => [])
  mockUpdateRecord dv "scheduled_messages" messageId updateData now

/-- MessageProcessor._mark_message_failed: updates the scheduled_messages
record to status failed; a failure of the update is swallowed (the store is
left as it was). -/
def markMessageFailed (dv : MockDataverse) (messageId errorMessage : PyVal)
    (now : String) : MockDataverse :=
  let updateData : Record :=
    [("status", .str "failed"), ("error_message", errorMessage),
     ("processed_time", .str now), ("updated_at", .str now)]
  match mockUpdateRecord dv "scheduled_messages" messageId updateData now with
  | .ok dv' => dv'
  | .error _ => dv

/-- MessageProcessor._process_message: dry-run returns a pseudo-result with
no store access; a live run dispatches through the factory, then either logs
and marks sent (a mark-sent failure propagates) or marks failed.  The value
is the per-message result dict of the source. -/
def processMessage (dv : MockDataverse) (message : Record) (dryRun : Bool)
    (now : String) : Except String (MockDataverse × Record) :=
  let messageId := pyGet message "id"
  let messageType := pyGetD message "message_type" (.str "email")
  if dryRun then
    .ok (dv, [("status", .str "dry_run"), ("message_id", messageId),
              ("message_type", messageType),
              ("recipient", pyGet message "recipient"),
              ("subject", pyGet message "subject")])
  else
    let result := (factorySendMessage (defaultProviders now) message).1
    if result.success then
      let dv1 := logMessageSent dv messageId messageType
        (pyGet message "recipient") (pyGet message "subject")
        (pyGet message "body") (optToPy result.provider)
        (optToPy result.externalId) now
      match markMessageSent dv1 messageId result.externalId now with
      | .error e => .error e
      | .ok dv2 =>
        .ok (dv2, [("status", .str "success"), ("message_id", messageId),
                   ("message_type", messageType),
                   ("external_id", optToPy result.externalId),
                   ("provider", optToPy result.provider)])
    else
      let dv1 := markMessageFailed dv messageId (optToPy result.errorMessage) now
      .ok (dv1, [("status", .str "failed"), ("message_id", messageId),
                 ("message_type", messageType),
                 ("error", optToPy result.errorMessage)])

/-- MessageProcessor._query_pending_messages: the filter requests revised
messages due by now ordered by send time, with a batch size of 50, but the
mock store only honours top. -/
def queryPendingMessages (dv : MockDataverse) : List Record :=
  mockQueryRecords dv "scheduled_messages"
    (some "status eq \x27revised\x27 and send_time le utcNow()")
    (some "send_time asc") (some 50)

/-- The per-message loop of process_scheduled_messages: each message is
processed independently; an exception from one message is caught, recorded as
a failed result entry, and (on a live run) the message is marked failed. -/
def processBatch (dv : MockDataverse) (messages : List Record) (dryRun : Bool)
    (now : String) : MockDataverse × List Record :=
  match messages with
  | [] => (dv, [])
  | message :: rest =>
    let step :=
      match processMessage dv message dryRun now with
      | .ok (dv', entry) => (dv', entry)
      | .error e =>
        let failEntry : Record :=
          [("status", .str "failed"), ("message_id", pyGet message "id"),
           ("error", .str e)]
        let dv'' := if !dryRun then
            markMessageFailed dv (pyGet message "id") (.str e) now
          else dv
        (dv'', failEntry)
    let rest' := processBatch step.1 rest dryRun now
    (rest'.1, step.2 :: rest'.2)

/-- The aggregate batch summary dict returned by process_scheduled_messages;
the results key is absent (none) on the empty-batch early return. -/
structure BatchSummary where
  status : String
  processedCount : Nat
  successCount : Nat
  failedCount : Nat
  results : Option (List Record)
  runId : String
deriving DecidableEq

/-- MessageProcessor.process_scheduled_messages (the guarded inner
operation): query, early-return on an empty batch, process each message, then
compute the aggregate counts. -/
def processScheduledMessages (dv : MockDataverse) (runId : String)
    (dryRun : Bool) (now : String) : MockDataverse × BatchSummary :=
  let messages := queryPendingMessages dv
  if messages.isEmpty then
    (dv, { status := "success", processedCount := 0, successCount := 0,
           failedCount := 0, results := none, runId := runId })
  else
    let run := processBatch dv messages dryRun now
    let results := run.2
    let successCount :=
      (results.filter fun r => pyGet r "status" = PyVal.str "success").length
    let failedCount :=
      (results.filter fun r => pyGet r "status" = PyVal.str "failed").length
    (run.1, { status := "success", processedCount := results.length,
              successCount := successCount, failedCount := failedCount,
              results := some results, runId := runId })

/-! ## Dataverse resilience layer (src/dataverse/dev.py, circuit_breaker.py) -/

/-- The httpx exceptions the Dataverse layer raises or handles, with their
messages (and status code for HTTPStatusError).  In the httpx hierarchy
TimeoutException and ConnectError are subclasses of TransportError, and
TransportError and HTTPStatusError are subclasses of HTTPError. -/
inductive HttpxError where
  | timeoutException (msg : String)
  | connectError (msg : String)
  | transportError (msg : String)
  | httpStatusError (statusCode : Nat) (msg : String)
deriving DecidableEq

/-- Which errors the except clauses of _with_retry treat as transient:
timeouts and connection errors, and HTTPStatusError with a 5xx code.  A
non-5xx HTTPStatusError is re-raised at once, and a bare TransportError is
not caught by either except clause at all, so both propagate immediately. -/
def retryableError : HttpxError → Bool
  | .timeoutException _ => true
  | .connectError _ => true
  | .transportError _ => false
  | .httpStatusError code _ => 500 ≤ code && code < 600

deriving instance DecidableEq for Except

/-- The observable behaviour of one _with_retry execution: the returned value
or raised error, the number of invocations of the wrapped callable, and the
backoff sleeps performed in order. -/
structure RetryRun (α : Type) where
  result : Except HttpxError α
  attempts : Nat
  waits : List ℚ
deriving DecidableEq

/-- The retry loop of _with_retry from a given attempt index: the outcome of
the k-th invocation of the wrapped callable is fn k.  On a retryable error
with budget remaining the loop sleeps backoffFactor ^ attempt and continues;
on a retryable error on the last attempt the loop ends and the last transient
error is raised; a non-retryable error is raised immediately. -/
def retryGo (fn : Nat → Except HttpxError α) (backoffFactor : ℚ)
    (maxRetries attempt : Nat) : RetryRun α :=
  match fn attempt with
  | .ok v => { result := .ok v, attempts := 1, waits := [] }
  | .error e =>
    if retryableError e then
      if h : attempt + 1 < maxRetries then
        let rest := retryGo fn backoffFactor maxRetries (attempt + 1)
        { result := rest.result, attempts := rest.attempts + 1,
          waits := backoffFactor ^ attempt :: rest.waits }
      else
        { result := .error e, attempts := 1, waits := [] }
    else
      { result := .error e, attempts := 1, waits := [] }
termination_by maxRetries - attempt
decreasing_by omega

/-- What a whole Dataverse call can raise: an httpx error, or the
AssertionError of the max_retries = 0 corner where the loop body never runs
(never reached with the default of 3). -/
inductive DvCallError where
  | httpx (e : HttpxError)
  | assertionError
deriving DecidableEq

/-- The observable behaviour of a whole _with_retry call. -/
structure DvRetryRun (α : Type) where
  result : Except DvCallError α
  attempts : Nat
  waits : List ℚ
deriving DecidableEq

/-- _with_retry (defaults in the source: max_retries 3, backoff_factor 2.0). -/
def withRetry (fn : Nat → Except HttpxError α) (maxRetries : Nat)
    (backoffFactor : ℚ) : DvRetryRun α :=
  if maxRetries = 0 then { result := .error .assertionError, attempts := 0, waits := [] }
  else
    let r := retryGo fn backoffFactor maxRetries 0
    { result := r.result.mapError .httpx, attempts := r.attempts, waits := r.waits }

/-- The default max_retries of _with_retry. -/
def defaultMaxRetries : Nat := 3

/-- The default backoff_factor of _with_retry. -/
def defaultBackoffFactor : ℚ := 2

/-- CircuitState of src/dataverse/circuit_breaker.py (opened stands for the
OPEN member, open being a Lean keyword). -/
inductive CircuitState where
  | closed
  | opened
  | halfOpen
deriving DecidableEq

/-- The CircuitBreaker state: configuration plus mutable counters.  Times are
integer seconds of the wall clock; recoveryTimeout is the timedelta in
seconds. -/
structure CircuitBreaker where
  failureThreshold : Nat
  recoveryTimeout : Nat
  failureCount : Nat
  lastFailureTime : Option Int
  state : CircuitState
deriving DecidableEq

/-- CircuitBreaker.__init__. -/
def mkCircuitBreaker (failureThreshold recoveryTimeoutS : Nat) : CircuitBreaker :=
  { failureThreshold := failureThreshold, recoveryTimeout := recoveryTimeoutS,
    failureCount := 0, lastFailureTime := none, state := .closed }

/-- The singleton breaker guarding all Dataverse calls. -/
def dataverseBreaker : CircuitBreaker := mkCircuitBreaker 5 30

/-- CircuitBreaker._on_success: close and reset. -/
def breakerOnSuccess (b : CircuitBreaker) : CircuitBreaker :=
  { b with state := .closed, failureCount := 0, lastFailureTime := none }

/-- CircuitBreaker._on_failure: count the failure, stamp the time, open at
the threshold. -/
def breakerOnFailure (b : CircuitBreaker) (now : Int) : CircuitBreaker :=
  let failureCount := b.failureCount + 1
  { b with
    failureCount := failureCount,
    lastFailureTime := some now,
    state := if b.failureThreshold ≤ failureCount then .opened else b.state }

/-- The outcome of the wrapped callable when the breaker lets it run: a
value, an httpx.HTTPError (counted by the breaker and re-raised), or any
other exception (re-raised without touching the breaker). -/
inductive FnOutcome (α : Type) where
  | ok (v : α)
  | httpxFailure (e : HttpxError)
  | otherFailure (msg : String)
deriving DecidableEq

/-- The error the breaker raises when failing fast. -/
def breakerFastFailError : HttpxError :=
  .transportError "Circuit OPEN - failing fast"

/-- The observable behaviour of one wrapped call: the breaker afterwards, the
outcome seen by the caller, and how many times the wrapped callable ran. -/
structure BreakerStep (α : Type) where
  breaker : CircuitBreaker
  outcome : Except HttpxError (FnOutcome α)
  fnCalls : Nat
deriving DecidableEq

/-- The try block of CircuitBreaker.__call__ once the breaker lets the call
through: the callable runs exactly once and the breaker counters react. -/
def breakerRun (b : CircuitBreaker) (now : Int) (fnOutcome : FnOutcome α) :
    BreakerStep α :=
  match fnOutcome with
  | .ok v => { breaker := breakerOnSuccess b, outcome := .ok (.ok v), fnCalls := 1 }
  | .httpxFailure e =>
    { breaker := breakerOnFailure b now, outcome := .ok (.httpxFailure e), fnCalls := 1 }
  | .otherFailure m => { breaker := b, outcome := .ok (.otherFailure m), fnCalls := 1 }

/-- CircuitBreaker.__call__ (one invocation of the wrapped function): while
OPEN, either transition to HALF_OPEN when the recovery timeout has elapsed
since the last failure, or raise the fast-fail TransportError without
invoking the callable; otherwise run the callable. -/
def breakerCall (b : CircuitBreaker) (now : Int) (fnOutcome : FnOutcome α) :
    BreakerStep α :=
  if b.state = .opened then
    match b.lastFailureTime with
    | some t =>
      if (b.recoveryTimeout : Int) ≤ now - t then
        breakerRun { b with state := .halfOpen } now fnOutcome
      else
        { breaker := b, outcome := .error breakerFastFailError, fnCalls := 0 }
    | none => { breaker := b, outcome := .error breakerFastFailError, fnCalls := 0 }
  else
    breakerRun b now fnOutcome

/-- The outcome of one whole _with_retry call, shaped as what the breaker
observes: every HttpxError the retry layer raises is an httpx.HTTPError
instance, and the assertion corner is a non-httpx exception. -/
def dvCallOutcome (fn : Nat → Except HttpxError α) (maxRetries : Nat)
    (backoffFactor : ℚ) : FnOutcome α :=
  match (withRetry fn maxRetries backoffFactor).result with
  | .ok v => .ok v
  | .error (.httpx e) => .httpxFailure e
  | .error .assertionError => .otherFailure "AssertionError"

/-- One guarded Dataverse call as deployed: the singleton breaker wrapping a
_with_retry execution with the default retry parameters. -/
def guardedDvCall (b : CircuitBreaker) (now : Int)
    (fn : Nat → Except HttpxError α) : BreakerStep α :=
  breakerCall b now (dvCallOutcome fn defaultMaxRetries defaultBackoffFactor)

/-- A sequence of guarded Dataverse calls, each given by its wall-clock time
and the outcomes of its underlying attempts; returns the final breaker. -/
def runGuardedCalls (b : CircuitBreaker)
    (calls : List (Int × (Nat → Except HttpxError α))) : CircuitBreaker :=
  calls.foldl (fun acc c => (guardedDvCall acc c.1 c.2).breaker) b

/-! ## httpx exception classes, as except clauses can name them -/

/-- The exception classes a caller can name in an except clause around a
Dataverse call. -/
inductive HttpxHandlerClass where
  | exceptionClass
  | httpErrorClass
  | transportErrorClass
  | timeoutExceptionClass
  | connectErrorClass
  | httpStatusErrorClass
deriving DecidableEq

/-- Python isinstance over the httpx exception hierarchy: which except
clauses catch which raised error. -/
def matchesHandler : HttpxHandlerClass → HttpxError → Bool
  | .exceptionClass, _ => true
  | .httpErrorClass, _ => true
  | .transportErrorClass, e =>
    (match e with
     | .timeoutException _ => true
     | .connectError _ => true
     | .transportError _ => true
     | .httpStatusError _ _ => false)
  | .timeoutExceptionClass, e =>
    (match e with | .timeoutException _ => true | _ => false)
  | .connectErrorClass, e =>
    (match e with | .connectError _ => true | _ => false)
  | .httpStatusErrorClass, e =>
    (match e with | .httpStatusError _ _ => true | _ => false)

/-! ## Guardrails and run tracking (src/utils/guardrails.py) -/

/-- One entry of GuardrailManager.active_runs.  The completion fields are
absent (none) until complete_run writes them. -/
structure RunInfo where
  operation : String
  classification : String
  createdAt : String
  status : String
  dryRun : Bool
  approved : Bool
  completedAt : Option String := none
  success : Option Bool := none
  result : Option Record := none
deriving DecidableEq

/-- The GuardrailManager state: the two process-wide flags the wrapper
consults, plus the run registry. -/
structure GuardrailState where
  dryRunDefault : Bool
  requireApproval : Bool
  activeRuns : List (String × RunInfo)
deriving DecidableEq

/-- GuardrailManager.create_run_id: register a fresh run seeded from the
dry-run default, not approved, status created.  The fresh uuid is passed in
as runId. -/
def guardrailCreateRun (g : GuardrailState) (runId operation classification now : String) :
    GuardrailState :=
  { g with
    activeRuns := setAssoc g.activeRuns runId
      { operation := operation, classification := classification,
        createdAt := now, status := "created", dryRun := g.dryRunDefault,
        approved := false } }

/-- GuardrailManager.is_approved: always true when approval enforcement is
globally disabled; false for an unknown run; else the stored flag. -/
def guardrailIsApproved (g : GuardrailState) (runId : String) : Bool :=
  if !g.requireApproval then true
  else
    match lookupField g.activeRuns runId with
    | none => false
    | some r => r.approved

/-- GuardrailManager.is_dry_run: the stored flag, or the process default for
an unknown run. -/
def guardrailIsDryRun (g : GuardrailState) (runId : String) : Bool :=
  match lookupField g.activeRuns runId with
  | none => g.dryRunDefault
  | some r => r.dryRun

/-- GuardrailManager.complete_run: record completion or failure against the
run; an unknown run id is logged and ignored. -/
def guardrailCompleteRun (g : GuardrailState) (runId : String) (success : Bool)
    (result : Option Record) (now : String) : GuardrailState :=
  match lookupField g.activeRuns runId with
  | none => g
  | some r =>
    { g with
      activeRuns := setAssoc g.activeRuns runId
        { r with
          status := if success then "completed" else "failed",
          completedAt := some now, success := some success, result := result } }

/-- The run id the safe_operation wrapper ends up using: the run_id keyword
argument when it is truthy, else the freshly minted id. -/
def safeOpRunId (freshRunId : String) (runIdArg : Option String) : String :=
  match runIdArg with
  | some rid => if rid = "" then freshRunId else rid
  | none => freshRunId

/-- The guardrail state after the run-id step of the wrapper: unchanged when
a truthy run_id was supplied, else with the fresh run registered. -/
def safeOpInitState (g : GuardrailState) (freshRunId : String)
    (runIdArg : Option String) (operationName classification now : String) :
    GuardrailState :=
  match runIdArg with
  | some rid =>
    if rid = "" then guardrailCreateRun g freshRunId operationName classification now
    else g
  | none => guardrailCreateRun g freshRunId operationName classification now

/-- The dry_run keyword the wrapper passes to the wrapped operation: the run
flag when the caller supplied none, and the caller value except that a
caller-requested live run is forced back to dry-run when the run flag says
dry-run (guardrails win). -/
def safeOpEffectiveDryRun (isDryRun : Bool) (dryRunArg : Option Bool) : Bool :=
  match dryRunArg with
  | none => isDryRun
  | some d => if isDryRun && !d then true else d

/-- The structured result dict the wrapper returns to its caller. -/
structure OpCallResult where
  success : Bool
  dryRun : Bool
  runId : String
  message : Option String := none
  error : Option String := none
  result : Option Record := none
deriving DecidableEq

/-- The observable behaviour of one wrapped invocation: the guardrail state
afterwards, the structured result, and how many times the wrapped operation
ran. -/
structure SafeOpRun where
  state : GuardrailState
  response : OpCallResult
  opCalls : Nat
deriving DecidableEq

/-- The safe_operation decorator of src/utils/guardrails.py applied to one
invocation.  The wrapped operation is a function of the effective dry_run
keyword that either returns a result dict or raises (an error value carrying
the exception text).  Whatever happens, the caller receives a structured
OpCallResult, never an exception. -/
def safeOperation (g : GuardrailState) (operationName classification : String)
    (freshRunId : String) (runIdArg : Option String) (dryRunArg : Option Bool)
    (op : Bool → Except String Record) (now : String) : SafeOpRun :=
  let runId := safeOpRunId freshRunId runIdArg
  let g1 := safeOpInitState g freshRunId runIdArg operationName classification now
  if !guardrailIsApproved g1 runId then
    { state := g1,
      response := { success := false,
                    error := some "Operation not approved. Use --approve flag.",
                    runId := runId, dryRun := guardrailIsDryRun g1 runId },
      opCalls := 0 }
  else
    let isDryRun := guardrailIsDryRun g1 runId
    let effectiveDryRun := safeOpEffectiveDryRun isDryRun dryRunArg
    match op effectiveDryRun with
    | .ok result =>
      { state := guardrailCompleteRun g1 runId true (some result) now,
        response := { success := true, dryRun := effectiveDryRun,
                      message := some (if effectiveDryRun then
                          "Operation executed in dry-run mode"
                        else "Operation executed successfully"),
                      runId := runId, result := some result },
        opCalls := 1 }
    | .error e =>
      { state := guardrailCompleteRun g1 runId false (some [("error", .str e)]) now,
        response := { success := false, error := some e, runId := runId,
                      dryRun := isDryRun },
        opCalls := 1 }

/-! ## Derived definitions used by the claim statements -/

/-- A sequence of calls through the breaker alone (outcome of the wrapped
callable given per call), returning the final breaker state. -/
def runBreakerCalls (b : CircuitBreaker) (calls : List (Int × FnOutcome α)) :
    CircuitBreaker :=
  calls.foldl (fun acc c => (breakerCall acc c.1 c.2).breaker) b

/-- The reachability invariant of the breaker: a non-closed breaker has hit
the failure threshold, and an open breaker has a last-failure timestamp.
It holds for the freshly constructed breaker and is preserved by every
call. -/
def BreakerInvariant (b : CircuitBreaker) : Prop :=
  (b.state ≠ CircuitState.closed → b.failureThreshold ≤ b.failureCount) ∧
  (b.state = CircuitState.opened → b.lastFailureTime ≠ none)

/-- Claim C9 as stated: a caller can name an except clause that catches the
breaker fast-fail error but catches neither a genuine connection failure nor
a genuine timeout from the data store. -/
def claimC9Distinguishable : Prop :=
  ∃ h : HttpxHandlerClass,
    matchesHandler h breakerFastFailError = true ∧
    matchesHandler h (HttpxError.connectError "Connection refused") = false ∧
    matchesHandler h (HttpxError.timeoutException "timed out") = false

/-! ## Concrete inputs for counterexamples and witnesses -/

/-- A scheduled message that has already been dispatched: status sent, not
revised. -/
def sentMessageRecord : Record :=
  [("id", .str "scheduled_messages_1"), ("message_type", .str "email"),
   ("recipient", .str "client@example.com"), ("subject", .str "Hello"),
   ("body", .str "Body"), ("send_time", .str "2026-01-01T00:00:00"),
   ("status", .str "sent"), ("created_at", .str "2026-01-01T00:00:00")]

/-- A store whose scheduled_messages table holds only the already-sent
message. -/
def dvWithSentMessage : MockDataverse :=
  { tables := [("scheduled_messages", [sentMessageRecord])] }

/-- A due, revised email message. -/
def revisedEmailRecord : Record :=
  [("id", .str "scheduled_messages_1"), ("message_type", .str "email"),
   ("recipient", .str "client@example.com"), ("subject", .str "Hello"),
   ("body", .str "Body"), ("send_time", .str "2026-01-01T00:00:00"),
   ("status", .str "revised"), ("created_at", .str "2026-01-01T00:00:00")]

/-- A store whose scheduled_messages table holds one due revised email. -/
def dvWithRevisedEmail : MockDataverse :=
  { tables := [("scheduled_messages", [revisedEmailRecord])] }

/-- An email message lacking its required subject field. -/
def emailMissingSubject : Record :=
  [("message_type", .str "email"), ("recipient", .str "client@example.com"),
   ("body", .str "Body")]

/-- A complete, valid email message. -/
def validEmailMessage : Record :=
  [("message_type", .str "email"), ("recipient", .str "client@example.com"),
   ("subject", .str "Hello"), ("body", .str "Body")]

/-- A message of a type no registered provider supports. -/
def carrierPigeonMessage : Record :=
  [("message_type", .str "carrier_pigeon"),
   ("recipient", .str "client@example.com"), ("body", .str "Body")]

/-- An underlying call that always fails with a 404 client error. -/
def always404 : Nat → Except HttpxError Unit :=
  fun _ => .error (.httpStatusError 404 "Not Found")

/-- An underlying call that always times out. -/
def alwaysTimeout : Nat → Except HttpxError Unit :=
  fun _ => .error (.timeoutException "timed out")

/-- Five consecutive guarded calls whose underlying attempts all fail with a
404 client error. -/
def fiveClientErrorCalls : List (Int × (Nat → Except HttpxError Unit)) :=
  [(0, always404), (1, always404), (2, always404), (3, always404), (4, always404)]

/-- The Dataverse breaker after five consecutive 4xx-failing guarded calls. -/
def breakerAfterFive404 : CircuitBreaker :=
  runGuardedCalls dataverseBreaker fiveClientErrorCalls

/-- An open breaker in the deployed configuration whose last failure was at
time 0, with the failure count at the threshold. -/
def openedBreaker : CircuitBreaker :=
  { failureThreshold := 5, recoveryTimeout := 30, failureCount := 5,
    lastFailureTime := some (0 : Int), state := CircuitState.opened }

/-- A guardrail state with approval enforcement on and no runs registered. -/
def guardrailsEnforced : GuardrailState :=
  { dryRunDefault := true, requireApproval := true, activeRuns := [] }

/-- A guardrail state with approval enforcement disabled. -/
def guardrailsNoApproval : GuardrailState :=
  { dryRunDefault := false, requireApproval := false, activeRuns := [] }

/-- A wrapped operation that raises. -/
def failingOp : Bool → Except String Record :=
  fun _ => .error "Dataverse unavailable"

/-! ## Shared lemmas -/

theorem lookupField_setAssoc (m : List (String × β)) (k : String) (v : β) :
    lookupField (setAssoc m k v) k = some v := by
  induction m with
  | nil => simp [setAssoc, lookupField]
  | cons kv rest ih =>
    obtain ⟨k', v'⟩ := kv
    by_cases h : k' = k
    · simp [setAssoc, h, lookupField]
    · simp [setAssoc, h, lookupField, ih]

/-! ## Claim C1 -/

/-- C1: refuted as stated; the code diverges from its own query intent.  The
processor asks the store for records with status revised and send_time due,
ordered by send_time, but MockDataverse.query_records ignores the filter and
orderby arguments altogether (first conjunct: the result does not depend on
them), so a run over a store holding an already-sent message selects that
message for dispatch: the selection is just the first 50 records of the
table in insertion order, whatever their status. -/
theorem c1_pending_query_ignores_filter :
    (∀ (dv : MockDataverse) (tableName : String) (f f' ob ob' : Option String)
      (t : Option Nat),
      mockQueryRecords dv tableName f ob t = mockQueryRecords dv tableName f' ob' t) ∧
    queryPendingMessages dvWithSentMessage = [sentMessageRecord] ∧
    pyGet sentMessageRecord "status" = PyVal.str "sent" ∧
    decide (pyGet sentMessageRecord "status" = PyVal.str "revised") = false := by
  refine ⟨fun dv tableName f f' ob ob' t => rfl, rfl, rfl, by decide⟩

/-! ## Claim C9 -/

/-- C9: refuted as stated.  No except clause a caller can write catches the
breaker fast-fail error while letting genuine connection failures and
timeouts pass: the fast-fail error is raised as httpx.TransportError, an
ancestor class of ConnectError and TimeoutException, so every handler class
matching it also matches the genuine transient errors. -/
theorem c9_counterexample : ¬ claimC9Distinguishable := by
  rintro ⟨h, h1, h2, h3⟩
  cases h <;> simp_all [matchesHandler, breakerFastFailError]

/-- C9 (amended): the breaker-open fast-fail is an httpx.TransportError with
the fixed message "Circuit OPEN - failing fast"; it is not distinguishable
from a genuine data-store failure by exception class (every except clause
catching it also catches genuine connection and timeout errors), and is
distinguishable only as a value, by its exact type or its message text. -/
theorem c9_fast_fail_error_classes :
    breakerFastFailError = HttpxError.transportError "Circuit OPEN - failing fast" ∧
    (∀ h : HttpxHandlerClass, matchesHandler h breakerFastFailError = true →
      matchesHandler h (HttpxError.connectError "Connection refused") = true ∧
      matchesHandler h (HttpxError.timeoutException "timed out") = true) ∧
    (∀ m, decide (breakerFastFailError = HttpxError.connectError m) = false) ∧
    (∀ m, decide (breakerFastFailError = HttpxError.timeoutException m) = false) ∧
    (∀ c m, decide (breakerFastFailError = HttpxError.httpStatusError c m) = false) := by
  refine ⟨rfl, ?_, fun m => rfl, fun m => rfl, fun c m => rfl⟩
  intro h hm
  cases h <;> simp_all [matchesHandler, breakerFastFailError]

/-- Witness for the amended C9 statement: the TransportError except clause
catches the fast-fail error, and it also catches both genuine transient
errors. -/
theorem c9_fast_fail_error_classes_witness :
    matchesHandler .transportErrorClass breakerFastFailError = true ∧
    matchesHandler .transportErrorClass (HttpxError.connectError "Connection refused") = true ∧
    matchesHandler .transportErrorClass (HttpxError.timeoutException "timed out") = true := by
  have h := c9_fast_fail_error_classes.2.1 .transportErrorClass (by decide)
  exact ⟨by decide, h.1, h.2⟩

/-! ## Claim C6 -/

/-- C6: confirmed.  The factory send is total (it returns a MessageResult, it
cannot raise).  A message without a message_type field yields an immediate
failed result with zero provider invocations; a truthy type no registered
provider supports yields a failed result whose error text names the type,
again with zero provider invocations; otherwise the factory delegates to the
first registered provider whose supports predicate accepts the type.  The
last conjunct instantiates the unsupported case at
message_type carrier_pigeon over the deployed registry. -/
theorem c6_factory_send_routing (providers : List Provider) (message : Record) :
    (lookupField message "message_type" = none →
      factorySendMessage providers message
        = ({ success := false, errorMessage := some "Message type is required" }, 0)) ∧
    (∀ t : String, pyGet message "message_type" = PyVal.str t → t ≠ "" →
      (∀ p ∈ providers, p.supports (PyVal.str t) = false) →
      factorySendMessage providers message
        = ({ success := false,
             errorMessage := some ("No provider available for message type: " ++ t) }, 0)) ∧
    (∀ p : Provider, truthy (pyGet message "message_type") = true →
      getProviderForMessageType providers (pyGet message "message_type") = some p →
      factorySendMessage providers message = ((p.send message).1, 1)) ∧
    (factorySendMessage (defaultProviders "t0") carrierPigeonMessage
      = ({ success := false,
           errorMessage :=
             some "No provider available for message type: carrier_pigeon" }, 0)) := by
  refine ⟨?_, ?_, ?_, ?_⟩
  · intro h
    simp [factorySendMessage, pyGet, pyGetD, h, truthy]
  · intro t ht htne hnone
    have hfind : getProviderForMessageType providers (PyVal.str t) = none := by
      simp only [getProviderForMessageType, List.find?_eq_none]
      intro p hp
      simp [hnone p hp]
    simp [factorySendMessage, ht, truthy, htne, hfind, pyStr]
  · intro p htr hfind
    simp [factorySendMessage, htr, hfind]
  · decide

/-- Witness for C6: a message with no message_type field fails with zero
provider contacts, and the carrier_pigeon message fails naming its type over
the deployed registry. -/
theorem c6_factory_send_routing_witness :
    (factorySendMessage (defaultProviders "t0") [("body", PyVal.str "B")]
      = ({ success := false, errorMessage := some "Message type is required" }, 0)) ∧
    (factorySendMessage (defaultProviders "t0") carrierPigeonMessage
      = ({ success := false,
           errorMessage :=
             some "No provider available for message type: carrier_pigeon" }, 0)) := by
  have h := c6_factory_send_routing (defaultProviders "t0") [("body", PyVal.str "B")]
  have h2 := (c6_factory_send_routing (defaultProviders "t0") carrierPigeonMessage).2.1
    "carrier_pigeon" rfl (by decide) ?_
  · exact ⟨h.1 rfl, h2⟩
  · intro p hp
    simp only [defaultProviders, List.mem_cons, List.mem_singleton] at hp
    rcases hp with h1 | h1 | h1
    · subst h1; decide
    · subst h1; decide
    · exact absurd h1 (by simp)

/-! ## Processor lemmas -/

theorem processMessage_dry (dv : MockDataverse) (message : Record) (now : String) :
    processMessage dv message true now
      = .ok (dv, [("status", .str "dry_run"), ("message_id", pyGet message "id"),
                  ("message_type", pyGetD message "message_type" (.str "email")),
                  ("recipient", pyGet message "recipient"),
                  ("subject", pyGet message "subject")]) := rfl

theorem processBatch_dry_state (dv : MockDataverse) (messages : List Record)
    (now : String) : (processBatch dv messages true now).1 = dv := by
  induction messages generalizing dv with
  | nil => rfl
  | cons m rest ih => simp [processBatch, processMessage_dry, ih]

theorem processBatch_dry_status (dv : MockDataverse) (messages : List Record)
    (now : String) :
    ∀ r ∈ (processBatch dv messages true now).2,
      pyGet r "status" = PyVal.str "dry_run" := by
  induction messages generalizing dv with
  | nil => intro r hr; simp [processBatch] at hr
  | cons m rest ih =>
    intro r hr
    simp only [processBatch, processMessage_dry] at hr
    rcases List.mem_cons.mp hr with h | h
    · subst h; rfl
    · exact ih dv r h

theorem processBatch_length (dv : MockDataverse) (messages : List Record)
    (dryRun : Bool) (now : String) :
    (processBatch dv messages dryRun now).2.length = messages.length := by
  induction messages generalizing dv with
  | nil => rfl
  | cons m rest ih => simp [processBatch, ih]

theorem processMessage_live_status (dv dv' : MockDataverse) (message r : Record)
    (now : String) (h : processMessage dv message false now = .ok (dv', r)) :
    pyGet r "status" = PyVal.str "success" ∨ pyGet r "status" = PyVal.str "failed" := by
  simp only [processMessage, Bool.false_eq_true, if_false] at h
  by_cases hs : (factorySendMessage (defaultProviders now) message).1.success
  · simp only [hs, if_true] at h
    rcases hmark : markMessageSent
        (logMessageSent dv (pyGet message "id")
          (pyGetD message "message_type" (.str "email")) (pyGet message "recipient")
          (pyGet message "subject") (pyGet message "body")
          (optToPy (factorySendMessage (defaultProviders now) message).1.provider)
          (optToPy (factorySendMessage (defaultProviders now) message).1.externalId) now)
        (pyGet message "id")
        (factorySendMessage (defaultProviders now) message).1.externalId now with
      he | hok
    · rw [hmark] at h; cases h
    · rw [hmark] at h
      cases h
      left; rfl
  · simp only [hs, if_false] at h
    cases h
    right; rfl

theorem processBatch_live_status (dv : MockDataverse) (messages : List Record)
    (now : String) :
    ∀ r ∈ (processBatch dv messages false now).2,
      pyGet r "status" = PyVal.str "success" ∨ pyGet r "status" = PyVal.str "failed" := by
  induction messages generalizing dv with
  | nil => intro r hr; simp [processBatch] at hr
  | cons m rest ih =>
    intro r hr
    simp only [processBatch] at hr
    rcases hpm : processMessage dv m false now with he | ⟨dv1, entry⟩
    · rw [hpm] at hr
      rcases List.mem_cons.mp hr with h | h
      · subst h; right; rfl
      · exact ih _ r h
    · rw [hpm] at hr
      rcases List.mem_cons.mp hr with h | h
      · subst h; exact processMessage_live_status dv dv1 m r now hpm
      · exact ih _ r h

theorem filter_status_partition (rs : List Record)
    (h : ∀ r ∈ rs, pyGet r "status" = PyVal.str "success"
      ∨ pyGet r "status" = PyVal.str "failed") :
    (rs.filter fun r => pyGet r "status" = PyVal.str "success").length
      + (rs.filter fun r => pyGet r "status" = PyVal.str "failed").length
      = rs.length := by
  induction rs with
  | nil => rfl
  | cons r rest ih =>
    have hrest := ih fun x hx => h x (List.mem_cons_of_mem r hx)
    rcases h r (List.mem_cons_self r rest) with hr | hr <;>
      simp [List.filter_cons, hr] <;> omega

/-! ## Claim C7 -/

/-- C7: confirmed.  A dry-run processing run leaves the data store exactly as
it was: no scheduled_messages record is touched and no messages_log record is
created, for every store content (in particular however many messages the
batch holds). -/
theorem c7_dry_run_no_mutation (dv : MockDataverse) (runId now : String) :
    (processScheduledMessages dv runId true now).1 = dv := by
  by_cases h : (queryPendingMessages dv).isEmpty
  · simp [processScheduledMessages, h]
  · simp [processScheduledMessages, h, processBatch_dry_state]

/-! ## Claim C2 -/

/-- C2 (amended): for every live (dry_run = false) batch the summary
satisfies processed_count = success_count + failed_count, and for every
batch (live or dry-run) the results list, when present, has length
processed_count (it is absent exactly on the empty early-return batch, whose
processed_count is 0).  Dry-run batches refute the claim as stated: every
dry-run entry has status dry_run, so success_count and failed_count are both
0 there while processed_count counts the entries. -/
theorem c2_batch_count_invariants (dv : MockDataverse) (runId now : String) :
    ((processScheduledMessages dv runId false now).2.successCount
      + (processScheduledMessages dv runId false now).2.failedCount
      = (processScheduledMessages dv runId false now).2.processedCount) ∧
    (∀ dryRun : Bool,
      (((processScheduledMessages dv runId dryRun now).2.results.map List.length).getD 0)
        = (processScheduledMessages dv runId dryRun now).2.processedCount) ∧
    ((processScheduledMessages dv runId true now).2.successCount = 0) ∧
    ((processScheduledMessages dv runId true now).2.failedCount = 0) := by
  by_cases h : (queryPendingMessages dv).isEmpty
  · simp [processScheduledMessages, h]
  · refine ⟨?_, ?_, ?_, ?_⟩
    · simp only [processScheduledMessages, h, if_false]
      exact filter_status_partition _ (processBatch_live_status dv _ now)
    · intro dryRun
      simp [processScheduledMessages, h]
    · simp only [processScheduledMessages, h, if_false]
      exact List.length_eq_zero.mpr (List.filter_eq_nil_iff.mpr
        (fun r hr => by simp [processBatch_dry_status dv _ now r hr]))
    · simp only [processScheduledMessages, h, if_false]
      exact List.length_eq_zero.mpr (List.filter_eq_nil_iff.mpr
        (fun r hr => by simp [processBatch_dry_status dv _ now r hr]))

/-- Counterexample for C2 as stated: a dry-run batch over one due message has
processed_count = 1 but success_count = failed_count = 0, so
processed_count = success_count + failed_count fails for dry-run batches. -/
theorem c2_counterexample :
    ((processScheduledMessages dvWithRevisedEmail "run-1" true
        "2026-01-02T00:00:00").2.processedCount = 1) ∧
    ((processScheduledMessages dvWithRevisedEmail "run-1" true
        "2026-01-02T00:00:00").2.successCount = 0) ∧
    ((processScheduledMessages dvWithRevisedEmail "run-1" true
        "2026-01-02T00:00:00").2.failedCount = 0) ∧
    (decide ((processScheduledMessages dvWithRevisedEmail "run-1" true
        "2026-01-02T00:00:00").2.processedCount
      = (processScheduledMessages dvWithRevisedEmail "run-1" true
          "2026-01-02T00:00:00").2.successCount
        + (processScheduledMessages dvWithRevisedEmail "run-1" true
            "2026-01-02T00:00:00").2.failedCount) = false) := by
  refine ⟨rfl, rfl, rfl, by decide⟩

/-! ## Claim C3 -/

/-- C3: confirmed for the Graph provider (send_message is total in the
embedding, mirroring that every dispatch exception is caught).  When any
required field for the message type is absent or falsy, send returns a
failed result with the fixed validation error and performs zero dispatch
calls; when validation passes and the dispatch path raises, the exception
text is returned in a failed result. -/
theorem c3_graph_send_isolation
    (sendEmail sendTeams : Record → Except String MessageResult) (message : Record) :
    (∀ f, f ∈ getRequiredFields (pyGetD message "message_type" (.str "unknown")) →
      truthy (pyGet message f) = false →
      (graphSendMessageWith sendEmail sendTeams message).1.success = false ∧
      (graphSendMessageWith sendEmail sendTeams message).1.errorMessage
        = some "Message validation failed" ∧
      (graphSendMessageWith sendEmail sendTeams message).2 = 0) ∧
    (∀ e, validateMessage message = true →
      pyGet message "message_type" = PyVal.str "email" →
      sendEmail message = .error e →
      (graphSendMessageWith sendEmail sendTeams message).1
        = { success := false, errorMessage := some e,
            provider := some "GraphMessagingProvider" }) ∧
    (∀ e, validateMessage message = true →
      pyGet message "message_type" = PyVal.str "teams" →
      sendTeams message = .error e →
      (graphSendMessageWith sendEmail sendTeams message).1
        = { success := false, errorMessage := some e,
            provider := some "GraphMessagingProvider" }) := by
  refine ⟨?_, ?_, ?_⟩
  · intro f hf hfalse
    have hv : validateMessage message = false := by
      simp only [validateMessage, List.all_eq_false]
      exact ⟨f, hf, by simp [hfalse]⟩
    simp [graphSendMessageWith, hv]
  · intro e hv ht hsend
    simp [graphSendMessageWith, hv, ht, hsend]
  · intro e hv ht hsend
    simp [graphSendMessageWith, hv, ht, hsend]

/-- Witness for C3: an email missing its subject fails validation with zero
dispatch calls, and a valid email whose dispatch raises "Graph API error"
yields a failed result carrying that text. -/
theorem c3_graph_send_isolation_witness :
    ((graphSendMessageWith (fun m => .ok (sendEmailViaGraph "t0" m))
        (fun m => .ok (sendTeamsViaGraph "t0" m)) emailMissingSubject).1.success = false ∧
      (graphSendMessageWith (fun m => .ok (sendEmailViaGraph "t0" m))
        (fun m => .ok (sendTeamsViaGraph "t0" m)) emailMissingSubject).1.errorMessage
        = some "Message validation failed" ∧
      (graphSendMessageWith (fun m => .ok (sendEmailViaGraph "t0" m))
        (fun m => .ok (sendTeamsViaGraph "t0" m)) emailMissingSubject).2 = 0) ∧
    (graphSendMessageWith (fun _ => .error "Graph API error")
        (fun m => .ok (sendTeamsViaGraph "t0" m)) validEmailMessage).1
      = { success := false, errorMessage := some "Graph API error",
          provider := some "GraphMessagingProvider" } := by
  refine ⟨?_, ?_⟩
  · exact (c3_graph_send_isolation (fun m => .ok (sendEmailViaGraph "t0" m))
      (fun m => .ok (sendTeamsViaGraph "t0" m)) emailMissingSubject).1
      "subject" (by decide) (by decide)
  · exact (c3_graph_send_isolation (fun _ => .error "Graph API error")
      (fun m => .ok (sendTeamsViaGraph "t0" m)) validEmailMessage).2.1
      "Graph API error" (by decide) (by decide) rfl

/-! ## Retry lemmas -/

theorem retryGo_attempts_pos (fn : Nat → Except HttpxError α) (b : ℚ)
    (maxRetries attempt : Nat) :
    1 ≤ (retryGo fn b maxRetries attempt).attempts := by
  rw [retryGo]
  rcases fn attempt with e | v
  · by_cases hr : retryableError e
    · simp only [hr, if_true]
      by_cases h2 : attempt + 1 < maxRetries
      · simp [h2]
      · simp [h2]
    · simp [hr]
  · simp

theorem retryGo_attempts_le (fn : Nat → Except HttpxError α) (b : ℚ) :
    ∀ (n maxRetries attempt : Nat), maxRetries - attempt ≤ n → attempt < maxRetries →
      (retryGo fn b maxRetries attempt).attempts ≤ maxRetries - attempt := by
  intro n
  induction n with
  | zero => intro maxRetries attempt h1 h2; omega
  | succ n ih =>
    intro maxRetries attempt h1 h2
    rw [retryGo]
    rcases fn attempt with e | v
    · by_cases hr : retryableError e
      · by_cases hlt : attempt + 1 < maxRetries
        · have := ih maxRetries (attempt + 1) (by omega) hlt
          simp [hr, hlt]
          omega
        · simp [hr, hlt]
          omega
      · simp [hr]
        omega
    · show 1 ≤ maxRetries - attempt
      omega

theorem retryGo_waits_eq (fn : Nat → Except HttpxError α) (b : ℚ) :
    ∀ (n maxRetries attempt : Nat), maxRetries - attempt ≤ n →
      (retryGo fn b maxRetries attempt).waits
        = (List.range ((retryGo fn b maxRetries attempt).attempts - 1)).map
            (fun i => b ^ (attempt + i)) := by
  intro n
  induction n with
  | zero =>
    intro maxRetries attempt h1
    rw [retryGo]
    rcases fn attempt with e | v
    · by_cases hr : retryableError e
      · have hlt : ¬ (attempt + 1 < maxRetries) := by omega
        simp [hr, hlt]
      · simp [hr]
    · simp
  | succ n ih =>
    intro maxRetries attempt h1
    rw [retryGo]
    rcases fn attempt with e | v
    · by_cases hr : retryableError e
      · by_cases hlt : attempt + 1 < maxRetries
        · have hrec := ih maxRetries (attempt + 1) (by omega)
          have hpos := retryGo_attempts_pos fn b maxRetries (attempt + 1)
          simp only [hr, hlt, if_true, dite_true]
          obtain ⟨k, hk⟩ : ∃ k, (retryGo fn b maxRetries (attempt + 1)).attempts = k + 1 :=
            ⟨(retryGo fn b maxRetries (attempt + 1)).attempts - 1, by omega⟩
          simp only [hrec, hk]
          simp only [Nat.add_sub_cancel, List.range_succ_eq_map, List.map_cons,
            List.map_map]
          congr 1
          refine List.map_congr_left fun i hi => ?_
          simp only [Function.comp_apply]
          congr 1
          omega
        · simp [hr, hlt]
      · simp [hr]
    · simp

theorem retryGo_mid_attempts (fn : Nat → Except HttpxError α) (b : ℚ) :
    ∀ (n maxRetries attempt : Nat), maxRetries - attempt ≤ n →
      ∀ i, i + 1 < (retryGo fn b maxRetries attempt).attempts →
        ∃ e, fn (attempt + i) = .error e ∧ retryableError e = true := by
  intro n
  induction n with
  | zero =>
    intro maxRetries attempt h1 i hi
    exfalso
    rw [retryGo] at hi
    rcases hfn : fn attempt with e | v <;> rw [hfn] at hi
    · by_cases hr : retryableError e
      · have hlt : ¬ (attempt + 1 < maxRetries) := by omega
        simp [hr, hlt] at hi
      · simp [hr] at hi
    · simp at hi
  | succ n ih =>
    intro maxRetries attempt h1 i hi
    rw [retryGo] at hi
    rcases hfn : fn attempt with e | v <;> rw [hfn] at hi
    · by_cases hr : retryableError e
      · by_cases hlt : attempt + 1 < maxRetries
        · simp only [hr, hlt, if_true, dite_true] at hi
          match i with
          | 0 => exact ⟨e, by simpa using hfn, hr⟩
          | j + 1 =>
            have hj : j + 1 < (retryGo fn b maxRetries (attempt + 1)).attempts := by
              simpa using Nat.lt_of_add_lt_add_right hi
            obtain ⟨e', he', hre'⟩ := ih maxRetries (attempt + 1) (by omega) j hj
            refine ⟨e', ?_, hre'⟩
            have heq : attempt + 1 + j = attempt + (j + 1) := by omega
            rw [heq] at he'
            exact he'
        · simp [hr, hlt] at hi
      · simp [hr] at hi
    · simp at hi

theorem retryGo_last_error (fn : Nat → Except HttpxError α) (b : ℚ) :
    ∀ (n maxRetries attempt : Nat), maxRetries - attempt ≤ n →
      ∀ e, (retryGo fn b maxRetries attempt).result = .error e →
        fn (attempt + ((retryGo fn b maxRetries attempt).attempts - 1)) = .error e := by
  intro n
  induction n with
  | zero =>
    intro maxRetries attempt h1 e he
    rw [retryGo] at he ⊢
    rcases hfn : fn attempt with e' | v <;> rw [hfn] at he
    · by_cases hr : retryableError e'
      · have hlt : ¬ (attempt + 1 < maxRetries) := by omega
        simp [hr, hlt] at he ⊢
        rw [← he]
        exact hfn
      · simp [hr] at he ⊢
        rw [← he]
        exact hfn
    · simp at he
  | succ n ih =>
    intro maxRetries attempt h1 e he
    rw [retryGo] at he ⊢
    rcases hfn : fn attempt with e' | v <;> rw [hfn] at he
    · by_cases hr : retryableError e'
      · by_cases hlt : attempt + 1 < maxRetries
        · simp only [hr, hlt, if_true, dite_true] at he ⊢
          have hpos := retryGo_attempts_pos fn b maxRetries (attempt + 1)
          have hrec := ih maxRetries (attempt + 1) (by omega) e he
          have heq : attempt + ((retryGo fn b maxRetries (attempt + 1)).attempts + 1 - 1)
              = attempt + 1 + ((retryGo fn b maxRetries (attempt + 1)).attempts - 1) := by
            omega
          rw [heq]
          exact hrec
        · simp [hr, hlt] at he ⊢
          rw [← he]
          exact hfn
      · simp [hr] at he ⊢
        rw [← he]
        exact hfn
    · simp at he

theorem retryGo_nonretryable (fn : Nat → Except HttpxError α) (b : ℚ)
    (maxRetries attempt : Nat) (e : HttpxError) (hfn : fn attempt = .error e)
    (hr : retryableError e = false) :
    retryGo fn b maxRetries attempt = { result := .error e, attempts := 1, waits := [] } := by
  rw [retryGo, hfn]
  simp [hr]

/-! ## Claim C4 -/

/-- C4: confirmed.  With the default budget of 3 attempts and backoff factor
2.0, the retry wrapper makes at most 3 attempts; the sleeps performed are
exactly backoff_factor ^ attempt for the non-final attempts (1s, 2s); every
attempt that is followed by another failed with a transient (retryable)
error; the error finally raised is the error of the last attempt made; a
non-retryable error (for example a 4xx status) on the first attempt
propagates immediately with one attempt and no sleeps; and when every
attempt fails transiently the budget is exhausted and the last transient
error is raised after exactly 3 attempts.  The last conjunct records which
errors are retryable: timeouts, connection errors, and 5xx statuses only. -/
theorem c4_retry_backoff_policy (fn : Nat → Except HttpxError α) :
    ((withRetry fn defaultMaxRetries defaultBackoffFactor).attempts ≤ 3) ∧
    ((withRetry fn defaultMaxRetries defaultBackoffFactor).waits
      = (List.range ((withRetry fn defaultMaxRetries defaultBackoffFactor).attempts - 1)).map
          (fun i => defaultBackoffFactor ^ i)) ∧
    (∀ i, i + 1 < (withRetry fn defaultMaxRetries defaultBackoffFactor).attempts →
      ∃ e, fn i = .error e ∧ retryableError e = true) ∧
    (∀ e, (withRetry fn defaultMaxRetries defaultBackoffFactor).result
        = .error (.httpx e) →
      fn ((withRetry fn defaultMaxRetries defaultBackoffFactor).attempts - 1)
        = .error e) ∧
    (∀ e, fn 0 = .error e → retryableError e = false →
      withRetry fn defaultMaxRetries defaultBackoffFactor
        = { result := .error (.httpx e), attempts := 1, waits := [] }) ∧
    ((∀ i, i < 3 → ∃ e, fn i = .error e ∧ retryableError e = true) →
      ∀ e, fn 2 = .error e →
        (withRetry fn defaultMaxRetries defaultBackoffFactor).result
          = .error (.httpx e) ∧
        (withRetry fn defaultMaxRetries defaultBackoffFactor).attempts = 3) ∧
    ((∀ m, retryableError (.timeoutException m) = true) ∧
      (∀ m, retryableError (.connectError m) = true) ∧
      (∀ c m, retryableError (.httpStatusError c m)
        = (decide (500 ≤ c) && decide (c < 600)))) := by
  have hw : withRetry fn defaultMaxRetries defaultBackoffFactor
      = { result := (retryGo fn 2 3 0).result.mapError DvCallError.httpx,
          attempts := (retryGo fn 2 3 0).attempts,
          waits := (retryGo fn 2 3 0).waits } := rfl
  refine ⟨?_, ?_, ?_, ?_, ?_, ?_, fun m => rfl, fun m => rfl, fun c m => rfl⟩
  · rw [hw]
    simpa using retryGo_attempts_le fn 2 3 3 0 (by omega) (by omega)
  · rw [hw]
    have := retryGo_waits_eq fn 2 3 3 0 (by omega)
    simpa using this
  · intro i hi
    rw [hw] at hi
    have := retryGo_mid_attempts fn 2 3 3 0 (by omega) i hi
    simpa using this
  · intro e he
    rw [hw] at he ⊢
    rcases hres : (retryGo fn 2 3 0).result with e' | v
    · rw [hres] at he
      simp only [Except.mapError, Except.error.injEq, DvCallError.httpx.injEq] at he
      subst he
      have := retryGo_last_error fn 2 3 3 0 (by omega) e' hres
      simpa using this
    · rw [hres] at he
      simp [Except.mapError] at he
  · intro e hf hr
    rw [hw, retryGo_nonretryable fn 2 3 0 e hf hr]
    rfl
  · intro h e hf2
    obtain ⟨e0, hf0, hr0⟩ := h 0 (by omega)
    obtain ⟨e1, hf1, hr1⟩ := h 1 (by omega)
    obtain ⟨e2, hf2', hr2⟩ := h 2 (by omega)
    have he2 : e2 = e := by
      rw [hf2] at hf2'
      exact (Except.error.injEq _ _).mp hf2' |>.symm ▸ rfl
    subst he2
    have h3 : retryGo fn 2 3 2
        = { result := .error e2, attempts := 1, waits := [] } := by
      rw [retryGo, hf2']
      simp [hr2]
    have h2' : retryGo fn 2 3 1
        = { result := .error e2, attempts := 2, waits := [(2 : ℚ) ^ 1] } := by
      rw [retryGo, hf1]
      simp [hr1, h3]
    have h1' : retryGo fn 2 3 0
        = { result := .error e2, attempts := 3, waits := [(2 : ℚ) ^ 0, (2 : ℚ) ^ 1] } := by
      rw [retryGo, hf0]
      simp [hr0, h2']
    rw [hw, h1']
    exact ⟨rfl, rfl⟩

/-- Witness for C4: a call whose attempts all time out exhausts the budget
(3 attempts, last timeout raised), and a call answered with a 404 propagates
it immediately after one attempt with no sleeps. -/
theorem c4_retry_backoff_policy_witness :
    ((withRetry alwaysTimeout defaultMaxRetries defaultBackoffFactor).result
        = .error (.httpx (.timeoutException "timed out")) ∧
      (withRetry alwaysTimeout defaultMaxRetries defaultBackoffFactor).attempts = 3) ∧
    (withRetry always404 defaultMaxRetries defaultBackoffFactor
      = { result := .error (.httpx (.httpStatusError 404 "Not Found")),
          attempts := 1, waits := [] }) := by
  refine ⟨?_, ?_⟩
  · exact (c4_retry_backoff_policy alwaysTimeout).2.2.2.2.2.1
      (fun i hi => ⟨.timeoutException "timed out", rfl, rfl⟩) _ rfl
  · exact (c4_retry_backoff_policy always404).2.2.2.2.1
      (.httpStatusError 404 "Not Found") rfl (by decide)

/-! ## Circuit breaker lemmas -/

theorem breakerCall_closed (b : CircuitBreaker) (now : Int) (o : FnOutcome α)
    (h : b.state = CircuitState.closed) :
    breakerCall b now o = breakerRun b now o := by
  simp [breakerCall, h]

theorem runBreakerCalls_closed_failures (e : HttpxError) :
    ∀ (ts : List Int) (b : CircuitBreaker), b.state = CircuitState.closed →
      b.failureCount + ts.length = b.failureThreshold → ts ≠ [] →
      (runBreakerCalls b
        (ts.map fun t => (t, (FnOutcome.httpxFailure e : FnOutcome Unit)))).state
        = CircuitState.opened := by
  intro ts
  induction ts with
  | nil => intro b h1 h2 h3; exact absurd rfl h3
  | cons t rest ih =>
    intro b h1 h2 h3
    simp only [List.map_cons, runBreakerCalls, List.foldl_cons]
    rw [show (breakerCall b t (FnOutcome.httpxFailure e : FnOutcome Unit)).breaker
        = breakerOnFailure b t from by rw [breakerCall_closed b t _ h1]; rfl]
    rcases rest with _ | ⟨t', rest'⟩
    · have hth : b.failureThreshold ≤ b.failureCount + 1 := by
        simp at h2
        omega
      simp [runBreakerCalls, breakerOnFailure, hth]
    · have hth : ¬ (b.failureThreshold ≤ b.failureCount + 1) := by
        simp at h2
        omega
      have := ih (breakerOnFailure b t)
        (by simp [breakerOnFailure, hth, h1])
        (by simp [breakerOnFailure] at *; omega)
        (by simp)
      simpa [runBreakerCalls] using this

theorem breakerCall_invariant (b : CircuitBreaker) (now : Int) (o : FnOutcome α)
    (h : BreakerInvariant b) : BreakerInvariant (breakerCall b now o).breaker := by
  obtain ⟨h1, h2⟩ := h
  by_cases hs : b.state = CircuitState.opened
  · rcases hlast : b.lastFailureTime with _ | t
    · exact absurd hlast (h2 hs)
    · simp only [breakerCall, hs, if_true, hlast]
      by_cases ht : (b.recoveryTimeout : Int) ≤ now - t
      · simp only [ht, if_true]
        rcases o with v | e | m
        · simp [breakerRun, breakerOnSuccess, BreakerInvariant]
        · refine ⟨fun _ => ?_, fun _ => by simp [breakerRun, breakerOnFailure]⟩
          have := h1 (by simp [hs])
          simp [breakerRun, breakerOnFailure]
          omega
        · exact ⟨fun hne => by simpa using h1 (by simp [hs]),
            fun hop => by simp [breakerRun, hlast]⟩
      · simp only [ht, if_false]
        exact ⟨h1, h2⟩
  · rw [breakerCall]
    simp only [hs, if_false]
    rcases o with v | e | m
    · simp [breakerRun, breakerOnSuccess, BreakerInvariant]
    · constructor
      · intro hne
        simp only [breakerRun, breakerOnFailure] at hne ⊢
        by_cases hth : b.failureThreshold ≤ b.failureCount + 1
        · omega
        · simp only [hth, if_false] at hne
          have := h1 hne
          omega
      · intro hop
        simp [breakerRun, breakerOnFailure]
    · exact ⟨h1, h2⟩

theorem breakerCall_closed_or_half (b : CircuitBreaker) (now : Int) (o : FnOutcome α)
    (h : ¬ b.state = CircuitState.opened) :
    breakerCall b now o = breakerRun b now o := by
  simp [breakerCall, h]

/-! ## Claim C5 -/

/-- C5: confirmed.  Reaching the failure threshold of consecutive counted
failures opens the circuit (first conjunct, for a fresh breaker of any
threshold); while OPEN and within the recovery timeout of the last failure a
call fails fast with the fixed TransportError and the wrapped callable never
runs; once the timeout has elapsed the call runs against the HALF_OPEN state
and the callable is invoked exactly once (breakerRun always has fnCalls 1);
a success on any call that actually runs closes the circuit and resets the
failure count to 0; and a failure while HALF_OPEN reopens the circuit (for
every reachable breaker, captured by the invariant, which holds for the
deployed breaker and is preserved by every call). -/
theorem c5_breaker_state_machine (b : CircuitBreaker) (now : Int) (o : FnOutcome α) :
    (∀ (th rto : Nat) (ts : List Int) (e : HttpxError), 0 < th → ts.length = th →
      (runBreakerCalls (mkCircuitBreaker th rto)
        (ts.map fun t => (t, (FnOutcome.httpxFailure e : FnOutcome Unit)))).state
        = CircuitState.opened) ∧
    (∀ t : Int, b.state = CircuitState.opened → b.lastFailureTime = some t →
      now - t < (b.recoveryTimeout : Int) →
      breakerCall b now o
        = { breaker := b, outcome := .error breakerFastFailError, fnCalls := 0 }) ∧
    (∀ t : Int, b.state = CircuitState.opened → b.lastFailureTime = some t →
      (b.recoveryTimeout : Int) ≤ now - t →
      breakerCall b now o
        = breakerRun { b with state := CircuitState.halfOpen } now o) ∧
    ((breakerRun b now o).fnCalls = 1) ∧
    (∀ v : α, (breakerRun b now (FnOutcome.ok v)).breaker = breakerOnSuccess b ∧
      (breakerRun b now (FnOutcome.ok v)).breaker.state = CircuitState.closed ∧
      (breakerRun b now (FnOutcome.ok v)).breaker.failureCount = 0) ∧
    (∀ v : α, (breakerCall b now (FnOutcome.ok v)).fnCalls = 1 →
      (breakerCall b now (FnOutcome.ok v)).breaker = breakerOnSuccess b) ∧
    (∀ e, BreakerInvariant b → b.state = CircuitState.halfOpen →
      (breakerCall b now (FnOutcome.httpxFailure e : FnOutcome α)).breaker.state
        = CircuitState.opened) ∧
    (BreakerInvariant dataverseBreaker) ∧
    (BreakerInvariant b → BreakerInvariant (breakerCall b now o).breaker) := by
  refine ⟨?_, ?_, ?_, ?_, ?_, ?_, ?_, ?_, ?_⟩
  · intro th rto ts e hth hlen
    exact runBreakerCalls_closed_failures e ts (mkCircuitBreaker th rto) rfl
      (by simp [mkCircuitBreaker, hlen]) (by rintro rfl; simp at hlen; omega)
  · intro t hs hlast hlt
    simp [breakerCall, hs, hlast, not_le.mpr hlt]
  · intro t hs hlast hle
    simp [breakerCall, hs, hlast, hle]
  · rcases o with v | e | m <;> rfl
  · intro v
    exact ⟨rfl, rfl, rfl⟩
  · intro v hcalls
    by_cases hs : b.state = CircuitState.opened
    · rcases hlast : b.lastFailureTime with _ | t
      · simp [breakerCall, hs, hlast] at hcalls
      · by_cases ht : (b.recoveryTimeout : Int) ≤ now - t
        · simp only [breakerCall, hs, if_true, hlast, ht]
          rfl
        · simp [breakerCall, hs, hlast, ht] at hcalls
    · rw [breakerCall_closed_or_half b now _ hs]
      rfl
  · intro e hinv hs
    have hth := hinv.1 (by simp [hs])
    have hns : ¬ b.state = CircuitState.opened := by simp [hs]
    rw [breakerCall_closed_or_half b now _ hns]
    simp [breakerRun, breakerOnFailure]
    omega
  · exact ⟨by simp [BreakerInvariant, dataverseBreaker, mkCircuitBreaker],
      by simp [BreakerInvariant, dataverseBreaker, mkCircuitBreaker]⟩
  · exact breakerCall_invariant b now o

/-- Witness for C5: five consecutive counted failures open the deployed
breaker configuration; an open breaker 10s after the last failure fails fast
without running the callable; the same breaker 40s after the last failure
probes in HALF_OPEN. -/
theorem c5_breaker_state_machine_witness :
    ((runBreakerCalls (mkCircuitBreaker 5 30)
        ([(0 : Int), 1, 2, 3, 4].map fun t =>
          (t, (FnOutcome.httpxFailure (HttpxError.connectError "refused")
            : FnOutcome Unit)))).state = CircuitState.opened) ∧
    (breakerCall openedBreaker (10 : Int) (FnOutcome.ok ())
      = { breaker := openedBreaker, outcome := .error breakerFastFailError,
          fnCalls := 0 }) ∧
    (breakerCall openedBreaker (40 : Int) (FnOutcome.ok ())
      = breakerRun { openedBreaker with state := CircuitState.halfOpen } (40 : Int)
          (FnOutcome.ok ())) := by
  refine ⟨?_, ?_, ?_⟩
  · exact (c5_breaker_state_machine (mkCircuitBreaker 5 30) 0
      (FnOutcome.ok ())).1 5 30 [0, 1, 2, 3, 4]
      (HttpxError.connectError "refused") (by omega) rfl
  · exact (c5_breaker_state_machine openedBreaker 10 (FnOutcome.ok ())).2.1
      0 rfl rfl (by norm_num [openedBreaker])
  · exact (c5_breaker_state_machine openedBreaker 40 (FnOutcome.ok ())).2.2.1
      0 rfl rfl (by norm_num [openedBreaker])

/-! ## Claim C10 -/

theorem withRetry_always404 :
    withRetry always404 defaultMaxRetries defaultBackoffFactor
      = { result := .error (.httpx (.httpStatusError 404 "Not Found")),
          attempts := 1, waits := [] } := by
  have h := retryGo_nonretryable (α := Unit) always404 2 3 0
    (.httpStatusError 404 "Not Found") rfl (by decide)
  simp [withRetry, defaultMaxRetries, defaultBackoffFactor, h, Except.mapError]

theorem dvCallOutcome_always404 :
    dvCallOutcome always404 defaultMaxRetries defaultBackoffFactor
      = FnOutcome.httpxFailure (.httpStatusError 404 "Not Found") := by
  simp [dvCallOutcome, withRetry_always404]

theorem guardedDvCall_always404 (b : CircuitBreaker) (t : Int) :
    guardedDvCall b t always404
      = breakerCall b t (FnOutcome.httpxFailure (.httpStatusError 404 "Not Found")) := by
  rw [guardedDvCall, dvCallOutcome_always404]

theorem breakerAfterFive404_eq :
    breakerAfterFive404
      = { failureThreshold := 5, recoveryTimeout := 30, failureCount := 5,
          lastFailureTime := some (4 : Int), state := CircuitState.opened } := by
  simp only [breakerAfterFive404, runGuardedCalls, fiveClientErrorCalls,
    List.foldl_cons, List.foldl_nil, guardedDvCall_always404]
  decide

theorem retryGo_alwaysTimeout_two :
    retryGo alwaysTimeout 2 3 2
      = { result := .error (.timeoutException "timed out"), attempts := 1,
          waits := [] } := by
  rw [retryGo]
  simp [alwaysTimeout, retryableError]

theorem retryGo_alwaysTimeout_one :
    retryGo alwaysTimeout 2 3 1
      = { result := .error (.timeoutException "timed out"), attempts := 2,
          waits := [(2 : ℚ) ^ 1] } := by
  rw [retryGo]
  simp [alwaysTimeout, retryableError, retryGo_alwaysTimeout_two]

theorem retryGo_alwaysTimeout_zero :
    retryGo alwaysTimeout 2 3 0
      = { result := .error (.timeoutException "timed out"), attempts := 3,
          waits := [(2 : ℚ) ^ 0, (2 : ℚ) ^ 1] } := by
  rw [retryGo]
  simp [alwaysTimeout, retryableError, retryGo_alwaysTimeout_one]

theorem withRetry_alwaysTimeout :
    withRetry alwaysTimeout defaultMaxRetries defaultBackoffFactor
      = { result := .error (.httpx (.timeoutException "timed out")), attempts := 3,
          waits := [(2 : ℚ) ^ 0, (2 : ℚ) ^ 1] } := by
  simp [withRetry, defaultMaxRetries, defaultBackoffFactor, retryGo_alwaysTimeout_zero, Except.mapError]

/-- C10: confirmed.  Whenever the retry layer under the breaker raises any
httpx error - a non-retryable 4xx as much as an exhausted transient failure -
the breaker counts exactly one failure for the whole wrapped call, not one
per retry attempt (an all-timeout call makes 3 attempts inside yet counts 1).
Consequently five consecutive guarded calls that each fail with a 404 open
the deployed breaker, and a further call within the recovery timeout fails
fast without running the wrapped callable. -/
theorem c10_breaker_counts_client_errors (b : CircuitBreaker) (now : Int)
    (fn : Nat → Except HttpxError α) :
    (∀ e, b.state = CircuitState.closed →
      (withRetry fn defaultMaxRetries defaultBackoffFactor).result
        = .error (.httpx e) →
      (guardedDvCall b now fn).breaker.failureCount = b.failureCount + 1 ∧
      (guardedDvCall b now fn).fnCalls = 1) ∧
    ((withRetry alwaysTimeout defaultMaxRetries defaultBackoffFactor).attempts = 3) ∧
    (∀ t : Int,
      (guardedDvCall (mkCircuitBreaker 5 30) t alwaysTimeout).breaker.failureCount
        = 1) ∧
    (breakerAfterFive404.state = CircuitState.opened) ∧
    (breakerAfterFive404.failureCount = 5) ∧
    ((guardedDvCall breakerAfterFive404 (10 : Int) always404).outcome
      = .error breakerFastFailError) ∧
    ((guardedDvCall breakerAfterFive404 (10 : Int) always404).fnCalls = 0) := by
  refine ⟨?_, by simp [withRetry_alwaysTimeout], ?_, ?_, ?_, ?_, ?_⟩
  · intro e hs hr
    have hout : dvCallOutcome fn defaultMaxRetries defaultBackoffFactor
        = FnOutcome.httpxFailure e := by
      simp [dvCallOutcome, hr]
    rw [guardedDvCall, hout, breakerCall_closed _ _ _ hs]
    exact ⟨rfl, rfl⟩
  · intro t
    have hout : dvCallOutcome alwaysTimeout defaultMaxRetries defaultBackoffFactor
        = FnOutcome.httpxFailure (.timeoutException "timed out") := by
      simp [dvCallOutcome, withRetry_alwaysTimeout]
    rw [guardedDvCall, hout]
    rfl
  · rw [breakerAfterFive404_eq]
  · rw [breakerAfterFive404_eq]
  · rw [guardedDvCall_always404, breakerAfterFive404_eq]
    decide
  · rw [guardedDvCall_always404, breakerAfterFive404_eq]
    decide

/-- Witness for C10: a guarded call over a closed fresh breaker whose
underlying attempt returns 404 increments the failure count to 1 with one
wrapped-call invocation. -/
theorem c10_breaker_counts_client_errors_witness :
    (guardedDvCall (mkCircuitBreaker 5 30) (0 : Int) always404).breaker.failureCount
      = (mkCircuitBreaker 5 30).failureCount + 1 ∧
    (guardedDvCall (mkCircuitBreaker 5 30) (0 : Int) always404).fnCalls = 1 := by
  exact (c10_breaker_counts_client_errors (mkCircuitBreaker 5 30) 0 always404).1
    (.httpStatusError 404 "Not Found") rfl (by rw [withRetry_always404])

/-! ## Claim C8 -/

/-- C8: confirmed.  The safe_operation wrapper is total: the caller always
receives a structured OpCallResult.  When the run is not approved the
wrapped operation is never invoked and the response is the fixed
not-approved failure; when the wrapped operation raises, the wrapper returns
a failure response carrying the exception text, invokes the operation
exactly once, and records the run (when registered) as failed. -/
theorem c8_safe_operation_guardrails (g : GuardrailState)
    (operationName classification freshRunId : String) (runIdArg : Option String)
    (dryRunArg : Option Bool) (op : Bool → Except String Record) (now : String) :
    (guardrailIsApproved
        (safeOpInitState g freshRunId runIdArg operationName classification now)
        (safeOpRunId freshRunId runIdArg) = false →
      (safeOperation g operationName classification freshRunId runIdArg dryRunArg
        op now).opCalls = 0 ∧
      (safeOperation g operationName classification freshRunId runIdArg dryRunArg
        op now).response.success = false ∧
      (safeOperation g operationName classification freshRunId runIdArg dryRunArg
        op now).response.error
        = some "Operation not approved. Use --approve flag.") ∧
    (∀ e, guardrailIsApproved
        (safeOpInitState g freshRunId runIdArg operationName classification now)
        (safeOpRunId freshRunId runIdArg) = true →
      op (safeOpEffectiveDryRun
        (guardrailIsDryRun
          (safeOpInitState g freshRunId runIdArg operationName classification now)
          (safeOpRunId freshRunId runIdArg)) dryRunArg) = .error e →
      (safeOperation g operationName classification freshRunId runIdArg dryRunArg
        op now).opCalls = 1 ∧
      (safeOperation g operationName classification freshRunId runIdArg dryRunArg
        op now).response.success = false ∧
      (safeOperation g operationName classification freshRunId runIdArg dryRunArg
        op now).response.error = some e ∧
      (∀ ri, lookupField
          (safeOpInitState g freshRunId runIdArg operationName classification
            now).activeRuns (safeOpRunId freshRunId runIdArg) = some ri →
        lookupField
          (safeOperation g operationName classification freshRunId runIdArg dryRunArg
            op now).state.activeRuns (safeOpRunId freshRunId runIdArg)
          = some { ri with
                   status := "failed", completedAt := some now,
                   success := some false,
                   result := some [("error", .str e)] })) := by
  constructor
  · intro happ
    simp [safeOperation, happ]
  · intro e happ hop
    refine ⟨?_, ?_, ?_, ?_⟩
    · simp [safeOperation, happ, hop]
    · simp [safeOperation, happ, hop]
    · simp [safeOperation, happ, hop]
    · intro ri hri
      simp only [safeOperation, happ, Bool.not_true, Bool.false_eq_true, if_false,
        hop]
      simp only [guardrailCompleteRun, hri]
      exact lookupField_setAssoc _ _ _

/-- Witness for C8: with approval enforced and no approval given, the
operation is never invoked and the not-approved failure is returned; with
approval enforcement disabled and a raising operation, the wrapper returns a
failure carrying the exception text after exactly one invocation. -/
theorem c8_safe_operation_guardrails_witness :
    ((safeOperation guardrailsEnforced "scheduled-message-process" "business"
        "run-1" none none failingOp "t0").opCalls = 0 ∧
      (safeOperation guardrailsEnforced "scheduled-message-process" "business"
        "run-1" none none failingOp "t0").response.error
        = some "Operation not approved. Use --approve flag.") ∧
    ((safeOperation guardrailsNoApproval "scheduled-message-process" "business"
        "run-1" none none failingOp "t0").opCalls = 1 ∧
      (safeOperation guardrailsNoApproval "scheduled-message-process" "business"
        "run-1" none none failingOp "t0").response.error
        = some "Dataverse unavailable") := by
  constructor
  · have h := (c8_safe_operation_guardrails guardrailsEnforced
      "scheduled-message-process" "business" "run-1" none none failingOp "t0").1
      (by decide)
    exact ⟨h.1, h.2.2⟩
  · have h := (c8_safe_operation_guardrails guardrailsNoApproval
      "scheduled-message-process" "business" "run-1" none none failingOp "t0").2
      "Dataverse unavailable" (by decide) rfl
    exact ⟨h.1, h.2.2.1⟩
